import Mathlib

/-!
Verification model of `bot.py` (forex-alert-bot): a poller that scrapes the
ForexFactory calendar, filters high-impact rows for tracked currencies,
deduplicates events by a derived identity, and schedules one-shot delayed
Telegram notifications a fixed lead time before each event.

Modelling conventions:
* Instants are `Int` minutes in the configured timezone (an absolute,
  timezone-resolved point in time at the minute resolution the program uses:
  parsed times have minute precision and the lead offset is whole minutes).
  A calendar day starts at a multiple of 1440.
* Python strings are Lean `String`s; `str.lower()` / `str.upper()` are the
  ASCII case maps `pyLower` / `pyUpper` (all data in play is ASCII).
* DOM retrieval, CSS selection and whitespace normalisation (`_cell_text`)
  are outside the spec's scope boundary; a `Row` carries the extracted cell
  texts and the `_row_has_high_impact` verdict directly.
-/

/-- ASCII lower-casing of one character, the per-character action of Python
`str.lower()` on ASCII input. -/
def pyLowerChar (c : Char) : Char :=
  if 65 ≤ c.toNat ∧ c.toNat ≤ 90 then Char.ofNat (c.toNat + 32) else c

/-- ASCII upper-casing of one character, the per-character action of Python
`str.upper()` on ASCII input. -/
def pyUpperChar (c : Char) : Char :=
  if 97 ≤ c.toNat ∧ c.toNat ≤ 122 then Char.ofNat (c.toNat - 32) else c

/-- Python `str.lower()` (ASCII fragment). -/
def pyLower (s : String) : String := ⟨s.data.map pyLowerChar⟩

/-- Python `str.upper()` (ASCII fragment). -/
def pyUpper (s : String) : String := ⟨s.data.map pyUpperChar⟩

/-! ## Time parsing and formatting

`TIME_PATTERNS = ["%I:%M%p", "%I%p"]` (src/bot.py lines 48-51): a 12-hour
clock hour (1-2 digits, value 1..12), an optional `:` + minutes (1-2 digits,
value 0..59), and an am/pm marker (case-insensitive), consuming the whole
string — the matching behaviour of Python `datetime.strptime` on these two
patterns. -/

/-- Is `c` an ASCII digit (the digit class of `strptime`'s `%I`/`%M`). -/
def pyIsDigit (c : Char) : Bool := 48 ≤ c.toNat && c.toNat ≤ 57

/-- Numeric value of an ASCII digit character. -/
def digitVal (c : Char) : Nat := c.toNat - 48

/-- The `%I[:%M]` body of a clock string: hour token and minute token, before
range checking.  Shapes: `h`, `hh`, `h:m`, `h:mm`, `hh:m`, `hh:mm`. -/
def parseHM (body : List Char) : Option (Nat × Nat) :=
  match body with
  | [a] => if pyIsDigit a then some (digitVal a, 0) else none
  | [a, b] =>
    if pyIsDigit a && pyIsDigit b then some (10 * digitVal a + digitVal b, 0)
    else none
  | [a, b, c] =>
    if pyIsDigit a && b = ':' && pyIsDigit c then some (digitVal a, digitVal c)
    else none
  | [a, b, c, d] =>
    if pyIsDigit a && b = ':' && pyIsDigit c && pyIsDigit d then
      some (digitVal a, 10 * digitVal c + digitVal d)
    else if pyIsDigit a && pyIsDigit b && c = ':' && pyIsDigit d then
      some (10 * digitVal a + digitVal b, digitVal d)
    else none
  | [a, b, c, d, e] =>
    if pyIsDigit a && pyIsDigit b && c = ':' && pyIsDigit d && pyIsDigit e then
      some (10 * digitVal a + digitVal b, 10 * digitVal d + digitVal e)
    else none
  | _ => none

/-- Resolve a parsed 12-hour reading against the base date: `strptime`'s
range checks (`%I` in 1..12, `%M` in 0..59) and am/pm resolution
(`12am ↦ 0h`, `12pm ↦ 12h`), then minutes since epoch. -/
def resolveClock (hm : Option (Nat × Nat)) (pm : Bool) (base : Int) :
    Option Int :=
  match hm with
  | none => none
  | some (h, m) =>
    if 1 ≤ h ∧ h ≤ 12 ∧ m ≤ 59 then
      some (base + 60 * ((h % 12 : Nat) + (if pm then 12 else 0)) + m)
    else none

/-- Modelled from the spec: `_parse_time_to_dt` is called by `fetch_events`
(src/bot.py line 123) but its definition is not among the sources.  Per spec
§4.1 and `TIME_PATTERNS`, it resolves a clock-time field (`"8:30am"`,
`"8am"`) against the given base date (midnight of "today" in the configured
timezone) and yields `none` for anything else — all-day/no-time markers and
unparseable text. -/
def parse_time_to_dt (timeStr : String) (baseDate : Int) : Option Int :=
  match (pyLower timeStr).data.reverse with
  | c2 :: c1 :: rest =>
    if c2 = 'm' ∧ c1 = 'a' then resolveClock (parseHM rest.reverse) false baseDate
    else if c2 = 'm' ∧ c1 = 'p' then
      resolveClock (parseHM rest.reverse) true baseDate
    else none
  | _ => none

/-- The digit character for `n % 10`-style values 0..9. -/
def digitChar (n : Int) : Char := Char.ofNat (48 + n.toNat)

/-- Zero-padded two-digit rendering, as `strftime`'s `%H` / `%M` produce. -/
def pad2 (n : Int) : String := ⟨[digitChar (n / 10), digitChar (n % 10)]⟩

/-- Hour-of-day of an instant (minutes since epoch, days are 1440 min). -/
def hourOfDay (t : Int) : Int := t % 1440 / 60

/-- Minute-of-hour of an instant. -/
def minuteOfHour (t : Int) : Int := t % 60

/-- The display format `event_dt.strftime("%H:%M")` (src/bot.py line 147):
the 24-hour
zero-padded local display time used in the notification text. -/
def strftime_HM (t : Int) : String :=
  pad2 (hourOfDay t) ++ ":" ++ pad2 (minuteOfHour t)

/-- Spec-side reading of a 24-hour `HH:MM` display string back to
minutes-of-day, used to state the round-trip property. -/
def readClock24 (s : String) : Option Int :=
  match s.data with
  | [a, b, c, d, e] =>
    if pyIsDigit a && pyIsDigit b && c = ':' && pyIsDigit d && pyIsDigit e then
      let h := 10 * digitVal a + digitVal b
      let m := 10 * digitVal d + digitVal e
      if h ≤ 23 ∧ m ≤ 59 then some ((60 * h + m : Nat) : Int) else none
    else none
  | _ => none

/-! ## Event records and `fetch_events` (src/bot.py lines 93-141) -/

/-- The normalized event dict appended by `fetch_events`
(src/bot.py lines 132-139). -/
structure Event where
  id : String
  currency : String
  title : String
  event_dt : Int
  forecast : String
  previous : String
deriving DecidableEq

/-- One candidate calendar row, at the interface boundary the spec draws
around markup parsing: `highImpact` is the `_row_has_high_impact` verdict and
the other fields are the `_cell_text` extractions of the selected cells
(`""` when the cell is absent or empty). -/
structure Row where
  highImpact : Bool
  currency : String
  title : String
  timeStr : String
  forecast : String
  previous : String
deriving DecidableEq

/-- Rendering `datetime.isoformat()` of an instant: an injective textual
rendering.
Only congruence (equal instants give equal renderings) matters to the
identity computed from it, so the rendering is kept abstractly canonical. -/
def isoformat (t : Int) : String := toString t

/-- The body of `fetch_events`' per-row loop (src/bot.py lines 110-139):
require high impact, tracked currency, non-empty title and parseable time;
fall back to "—" for empty forecast/previous; build the identity string
`f"{event_dt.isoformat()}|{currency}|{title}".lower()`. -/
def rowToEvent (currencies : List String) (today : Int) (r : Row) :
    Option Event :=
  if !r.highImpact then none
  else if r.currency = "" || !(currencies.contains (pyUpper r.currency)) then
    none
  else if r.title = "" then none
  else
    match parse_time_to_dt r.timeStr today with
    | none => none
    | some event_dt =>
      some
        { id := pyLower (isoformat event_dt ++ "|" ++ r.currency ++ "|" ++
            r.title)
          currency := pyUpper r.currency
          title := r.title
          event_dt := event_dt
          forecast := if r.forecast = "" then "—" else r.forecast
          previous := if r.previous = "" then "—" else r.previous }

/-- Function `fetch_events` (src/bot.py lines 93-141) on the extracted candidate
rows: one event per surviving row, rows failing any requirement skipped
silently.  `today` is midnight of the current day in the configured
timezone; `currencies` is the uppercased `CURRENCIES` list. -/
def fetch_events (currencies : List String) (today : Int) (rows : List Row) :
    List Event :=
  rows.filterMap (rowToEvent currencies today)

/-! ## Scheduling (src/bot.py lines 143-182) -/

/-- A pending one-shot job, as registered by
`scheduler.add_job(notify, "date", run_date=notify_at, args=[ev],
id=ev["id"], misfire_grace_time=60, coalesce=True)`
(src/bot.py lines 164-172). -/
structure Job where
  id : String
  run_date : Int
  event : Event
  misfire_grace_time : Int
  coalesce : Bool
deriving DecidableEq

/-- Mutable process state: the module-level `SCHEDULED_IDS` set
(src/bot.py line 46) together with the scheduler's pending jobs. -/
structure BotState where
  scheduledIds : List String
  jobs : List Job
deriving DecidableEq

/-- The ids of the pending jobs. -/
def jobIds (st : BotState) : List String := st.jobs.map Job.id

/-- APScheduler `add_job` with an explicit job id: it raises
`ConflictingIdError` when a pending job already carries that id, otherwise
it registers the job. -/
def add_job (jobs : List Job) (j : Job) : Except String (List Job) :=
  if (jobs.map Job.id).contains j.id then Except.error "ConflictingIdError"
  else Except.ok (jobs ++ [j])

/-- Spec §4.3 outcome vocabulary for one event offered to the scheduler. -/
inductive Outcome
  | Scheduled
  | SkippedPast
  | SkippedDuplicate
deriving DecidableEq

/-- One iteration of the `for ev in events` loop of `schedule_notifications`
(src/bot.py lines 158-174): `notify_at = ev["event_dt"] -
timedelta(minutes=LEAD_MINUTES)`; `continue` when `notify_at <= now`;
`continue` when `ev["id"] in SCHEDULED_IDS`; otherwise register the job and
only afterwards add the id to `SCHEDULED_IDS`.  The second component is the
outcome of the iteration, or the exception it propagates (in which case the
id was not added). -/
def schedule (lead now : Int) (st : BotState) (ev : Event) :
    BotState × Except String Outcome :=
  let notify_at := ev.event_dt - lead
  if notify_at ≤ now then (st, Except.ok Outcome.SkippedPast)
  else if st.scheduledIds.contains ev.id then
    (st, Except.ok Outcome.SkippedDuplicate)
  else
    match add_job st.jobs
        { id := ev.id, run_date := notify_at, event := ev,
          misfire_grace_time := 60, coalesce := true } with
    | Except.error e => (st, Except.error e)
    | Except.ok jobs' =>
      ({ scheduledIds := ev.id :: st.scheduledIds, jobs := jobs' },
        Except.ok Outcome.Scheduled)

/-- Function `schedule_notifications` (src/bot.py lines 156-174): the loop over the
fetched events.  An uncaught exception aborts the remaining iterations while
the state mutated so far persists; `none` in the second component means the
call returned normally. -/
def schedule_notifications (lead now : Int) (events : List Event)
    (st : BotState) : BotState × Option String :=
  match events with
  | [] => (st, none)
  | ev :: rest =>
    match schedule lead now st ev with
    | (st', Except.error e) => (st', some e)
    | (st', Except.ok _) => schedule_notifications lead now rest st'

/-- Function `poll_and_schedule` (src/bot.py lines 176-182): any exception raised by
the fetch step is caught and logged and the function returns with the state
untouched; on success the fetched events are fed to
`schedule_notifications`.  The fetch result is a parameter because network
I/O sits at the spec's interface boundary. -/
def poll_and_schedule (lead now : Int)
    (fetchResult : Except String (List Event)) (st : BotState) :
    BotState × Option String :=
  match fetchResult with
  | Except.error _ => (st, none)
  | Except.ok events => schedule_notifications lead now events st

/-- The message text built by `notify` (src/bot.py lines 144-150); the
event's time-of-day is displayed as `event_dt.strftime("%H:%M")`. -/
def notifyText (lead : Int) (ev : Event) : String :=
  "⚠️ Через " ++ toString lead ++ " мин выйдет новость по <b>" ++
    ev.currency ++ "</b>\n\n<b>" ++ ev.title ++ "</b>\n⏰ Время выхода: <b>" ++
    strftime_HM ev.event_dt ++ "</b>\n📊 Прогноз: <b>" ++ ev.forecast ++
    "</b>\n📉 Предыдущее: <b>" ++ ev.previous ++ "</b>"

/-- The `try`/`except` around the send in `notify` (src/bot.py lines
151-154): a failed send is caught and logged.  The send result is a
parameter (the Telegram API is at the spec boundary); the returned value is
the exception `notify` propagates — `none` always. -/
def notify (sendResult : Except String Unit) : Option String :=
  match sendResult with
  | Except.ok _ => none
  | Except.error _ => none

/-- Startup configuration validation (src/bot.py lines 19-27):
`raise SystemExit` iff the stripped `API_TOKEN` or `CHAT_ID` is empty.  The
arguments are the already-stripped environment values. -/
def startup_check (apiToken chatId : String) : Except String Unit :=
  if apiToken = "" || chatId = "" then Except.error "SystemExit"
  else Except.ok ()

/-! ## The poll loop of `main` (src/bot.py lines 184-191) -/

/-- The `next_run_time` argument of APScheduler's `add_job`: left at its
`undefined` default, or explicitly passed as `None`. -/
inductive NextRunTimeArg
  | undefined
  | explicitNone
deriving DecidableEq

/-- Modelled from APScheduler's documented `add_job` contract: passing
`next_run_time=None` adds the job *paused* — it has no next run time and the
scheduler skips it until an explicit `resume()`, which this program never
performs; with the argument left undefined, an interval job runs at every
interval tick.  `intervalJobRuns nrt k` says whether the interval job runs
at interval tick `k ≥ 1`. -/
def intervalJobRuns (nrt : NextRunTimeArg) (k : Nat) : Bool :=
  match nrt with
  | NextRunTimeArg.explicitNone => false
  | NextRunTimeArg.undefined => 1 ≤ k

/-- The argument the program actually passes on src/bot.py line 188:
`scheduler.add_job(poll_and_schedule, "interval",
minutes=POLL_INTERVAL_MIN, next_run_time=None)`. -/
def main_interval_next_run_time : NextRunTimeArg := NextRunTimeArg.explicitNone

/-- Whether a fetch-and-schedule pass runs at tick `k` of `main`
(src/bot.py lines 184-191): tick 0 is the immediate
`await poll_and_schedule()` on line 187; tick `k ≥ 1` is the `k`-th
POLL_INTERVAL_MIN-minute tick of the interval job added on line 188. -/
def pollPassRuns (k : Nat) : Bool :=
  if k = 0 then true else intervalJobRuns main_interval_next_run_time k

instance : DecidableEq (Except String Outcome) := fun a b =>
  match a, b with
  | Except.ok x, Except.ok y =>
    if h : x = y then isTrue (by rw [h]) else isFalse (by simp [h])
  | Except.error x, Except.error y =>
    if h : x = y then isTrue (by rw [h]) else isFalse (by simp [h])
  | Except.ok _, Except.error _ => isFalse (by simp)
  | Except.error _, Except.ok _ => isFalse (by simp)

/-! ## Supporting lemmas -/

theorem char_toNat_ofNat_valid (n : Nat) (h : n < 0xd800) :
    (Char.ofNat n).toNat = n := by
  unfold Char.ofNat
  rw [dif_pos (Or.inl h)]
  rfl

theorem pyLowerChar_pyUpperChar (c : Char) :
    pyLowerChar (pyUpperChar c) = pyLowerChar c := by
  unfold pyLowerChar pyUpperChar
  by_cases h : 97 ≤ c.toNat ∧ c.toNat ≤ 122
  · rw [if_pos h]
    have h1 : (Char.ofNat (c.toNat - 32)).toNat = c.toNat - 32 :=
      char_toNat_ofNat_valid _ (by omega)
    rw [h1, if_pos (by omega : 65 ≤ c.toNat - 32 ∧ c.toNat - 32 ≤ 90),
      if_neg (by omega : ¬(65 ≤ c.toNat ∧ c.toNat ≤ 90))]
    have h2 : c.toNat - 32 + 32 = c.toNat := by omega
    rw [h2, Char.ofNat_toNat]
  · rw [if_neg h]

theorem pyLower_pyUpper_congr {s t : String} (h : pyUpper s = pyUpper t) :
    pyLower s = pyLower t := by
  have hd : s.data.map pyUpperChar = t.data.map pyUpperChar :=
    congrArg String.data h
  have h2 : s.data.map pyLowerChar = t.data.map pyLowerChar := by
    have h3 := congrArg (List.map pyLowerChar) hd
    simpa [List.map_map, Function.comp_def, pyLowerChar_pyUpperChar] using h3
  unfold pyLower
  rw [h2]

theorem rowToEvent_none_of_unparseable {cs : List String} {today : Int}
    {r : Row} (h : parse_time_to_dt r.timeStr today = none) :
    rowToEvent cs today r = none := by
  unfold rowToEvent
  split
  · rfl
  split
  · rfl
  split
  · rfl
  rw [h]

theorem schedule_ok_of_inv (lead now : Int) (st : BotState) (ev : Event)
    (hinv : jobIds st ⊆ st.scheduledIds) :
    ∃ st' o, schedule lead now st ev = (st', Except.ok o) ∧
      jobIds st' ⊆ st'.scheduledIds ∧
      st.scheduledIds ⊆ st'.scheduledIds ∧
      jobIds st ⊆ jobIds st' ∧
      (now < ev.event_dt - lead → ev.id ∈ st'.scheduledIds) ∧
      ((jobIds st).Nodup → (jobIds st').Nodup) := by
  unfold schedule
  by_cases hpast : ev.event_dt - lead ≤ now
  · exact ⟨st, Outcome.SkippedPast, by simp [hpast], hinv, fun x h => h,
      fun x h => h, fun hfut => absurd hfut (not_lt.mpr hpast), id⟩
  · by_cases hdup : ev.id ∈ st.scheduledIds
    · exact ⟨st, Outcome.SkippedDuplicate, by simp [hpast, hdup], hinv,
        fun x h => h, fun x h => h, fun _ => hdup, id⟩
    · have hnotjob : ev.id ∉ jobIds st := fun h => hdup (hinv h)
      refine ⟨{ scheduledIds := ev.id :: st.scheduledIds,
                jobs := st.jobs ++
                  [{ id := ev.id, run_date := ev.event_dt - lead,
                     event := ev, misfire_grace_time := 60,
                     coalesce := true }] },
        Outcome.Scheduled, ?_, ?_, ?_, ?_, ?_, ?_⟩
      · simp only [if_neg hpast]
        rw [if_neg (by simpa using hdup)]
        unfold add_job
        rw [if_neg (by
          simp only [List.contains, List.elem_eq_mem, decide_eq_true_eq]
          exact hnotjob)]
      · intro x hx
        simp only [jobIds, List.map_append, List.mem_append] at hx
        rcases hx with hx | hx
        · exact List.mem_cons_of_mem _ (hinv hx)
        · simp only [List.map_cons, List.map_nil, List.mem_singleton] at hx
          simp [hx]
      · exact fun x h => List.mem_cons_of_mem _ h
      · intro x hx
        simp only [jobIds, List.map_append, List.mem_append]
        exact Or.inl hx
      · exact fun _ => List.mem_cons_self _ _
      · intro hnd
        simp only [jobIds, List.map_append, List.map_cons, List.map_nil]
        rw [List.nodup_append]
        refine ⟨hnd, List.nodup_singleton _, ?_⟩
        intro x hx hx2
        simp only [List.mem_singleton] at hx2
        exact hnotjob (hx2 ▸ hx)

theorem schedule_notifications_ok_of_inv (lead now : Int)
    (events : List Event) (st : BotState)
    (hinv : jobIds st ⊆ st.scheduledIds) :
    (schedule_notifications lead now events st).2 = none ∧
      jobIds (schedule_notifications lead now events st).1 ⊆
        (schedule_notifications lead now events st).1.scheduledIds ∧
      st.scheduledIds ⊆
        (schedule_notifications lead now events st).1.scheduledIds ∧
      jobIds st ⊆ jobIds (schedule_notifications lead now events st).1 ∧
      (∀ ev ∈ events, now < ev.event_dt - lead →
        ev.id ∈ (schedule_notifications lead now events st).1.scheduledIds) ∧
      ((jobIds st).Nodup →
        (jobIds (schedule_notifications lead now events st).1).Nodup) := by
  induction events generalizing st with
  | nil =>
    refine ⟨rfl, hinv, fun x h => h, fun x h => h, ?_, id⟩
    intro ev he
    exact absurd he (List.not_mem_nil _)
  | cons ev rest ih =>
    obtain ⟨st1, o, heq, hinv1, hids1, hjobs1, hmem1, hnd1⟩ :=
      schedule_ok_of_inv lead now st ev hinv
    obtain ⟨r1, r2, r3, r4, r5, r6⟩ := ih st1 hinv1
    simp only [schedule_notifications, heq]
    refine ⟨r1, r2, fun x h => r3 (hids1 h), fun x h => r4 (hjobs1 h),
      ?_, fun h => r6 (hnd1 h)⟩
    intro e he hfut
    rcases List.mem_cons.mp he with he | he
    · exact r3 (he ▸ hmem1 (he ▸ hfut))
    · exact r5 e he hfut

theorem schedule_state_of_skip (lead now : Int) (st : BotState) (ev : Event)
    (h : ev.event_dt - lead ≤ now ∨ ev.id ∈ st.scheduledIds) :
    ∃ o, schedule lead now st ev = (st, Except.ok o) := by
  unfold schedule
  by_cases hpast : ev.event_dt - lead ≤ now
  · exact ⟨Outcome.SkippedPast, by simp [hpast]⟩
  · have hdup : ev.id ∈ st.scheduledIds := h.resolve_left hpast
    exact ⟨Outcome.SkippedDuplicate, by simp [hpast, hdup]⟩

theorem schedule_notifications_noop (lead now : Int) (events : List Event)
    (st : BotState)
    (h : ∀ ev ∈ events, ev.event_dt - lead ≤ now ∨ ev.id ∈ st.scheduledIds) :
    schedule_notifications lead now events st = (st, none) := by
  induction events with
  | nil => rfl
  | cons ev rest ih =>
    obtain ⟨o, heq⟩ :=
      schedule_state_of_skip lead now st ev (h ev (List.mem_cons_self _ _))
    simp only [schedule_notifications, heq]
    exact ih fun e he => h e (List.mem_cons_of_mem _ he)

theorem pyLower_append (s t : String) :
    pyLower (s ++ t) = pyLower s ++ pyLower t := by
  have hd : (pyLower (s ++ t)).data = (pyLower s ++ pyLower t).data := by
    simp [pyLower]
  cases hps : pyLower (s ++ t)
  cases hq : pyLower s ++ pyLower t
  rw [hps, hq] at hd
  simp only at hd
  rw [hd]

theorem rowToEvent_fields {cs : List String} {today : Int} {r : Row}
    {e : Event} (h : rowToEvent cs today r = some e) :
    e.currency = pyUpper r.currency ∧ e.title = r.title ∧
    e.id = pyLower (isoformat e.event_dt ++ "|" ++ r.currency ++ "|" ++
      r.title) := by
  unfold rowToEvent at h
  split at h
  · simp at h
  split at h
  · simp at h
  split at h
  · simp at h
  split at h
  · simp at h
  simp only [Option.some.injEq] at h
  subst h
  exact ⟨rfl, rfl, rfl⟩

theorem schedule_state_cases (lead now : Int) (st : BotState) (ev : Event) :
    (schedule lead now st ev).1 = st ∨
    ((schedule lead now st ev).1.scheduledIds = ev.id :: st.scheduledIds ∧
      jobIds (schedule lead now st ev).1 = jobIds st ++ [ev.id]) := by
  unfold schedule add_job
  by_cases hpast : ev.event_dt - lead ≤ now
  · simp [hpast]
  · by_cases hdup : ev.id ∈ st.scheduledIds
    · simp [hpast, hdup]
    · by_cases hc : ev.id ∈ st.jobs.map Job.id
      · simp [hpast, hdup, hc]
      · simp [hpast, hdup, hc, jobIds]

theorem schedule_jobIds_mono (lead now : Int) (st : BotState) (ev : Event) :
    jobIds st ⊆ jobIds (schedule lead now st ev).1 := by
  rcases schedule_state_cases lead now st ev with h | ⟨_, h2⟩
  · rw [h]
    exact fun x hx => hx
  · rw [h2]
    exact fun x hx => List.mem_append_left _ hx

theorem schedule_notifications_jobIds_mono (lead now : Int)
    (events : List Event) (st : BotState) :
    jobIds st ⊆ jobIds (schedule_notifications lead now events st).1 := by
  induction events generalizing st with
  | nil => exact fun x h => h
  | cons ev rest ih =>
    have h1 := schedule_jobIds_mono lead now st ev
    rcases heq : schedule lead now st ev with ⟨st1, r⟩
    rw [heq] at h1
    cases r with
    | error e =>
      simp only [schedule_notifications, heq]
      exact h1
    | ok o =>
      simp only [schedule_notifications, heq]
      exact fun x hx => ih st1 (h1 hx)

theorem schedule_new_id (lead now : Int) (st : BotState) (ev : Event) :
    ∀ i ∈ (schedule lead now st ev).1.scheduledIds,
      i ∈ st.scheduledIds ∨ i ∈ jobIds (schedule lead now st ev).1 := by
  rcases schedule_state_cases lead now st ev with h | ⟨h1, h2⟩
  · rw [h]
    exact fun i hi => Or.inl hi
  · intro i hi
    rw [h1] at hi
    rcases List.mem_cons.mp hi with rfl | hi
    · right
      rw [h2]
      exact List.mem_append_right _ (List.mem_singleton_self _)
    · exact Or.inl hi

/-! ## Claim theorems -/

/-- C1: a fetched row whose time field is unparseable (or an all-day/no-time
marker, on which `_parse_time_to_dt` yields `None`) is silently omitted by
`fetch_events` — no exception, and the remaining rows on either side are
still processed exactly as if the bad row were absent. -/
theorem c1_unparseable_row_skipped (cs : List String) (today : Int)
    (l1 l2 : List Row) (r : Row)
    (h : parse_time_to_dt r.timeStr today = none) :
    fetch_events cs today (l1 ++ r :: l2) = fetch_events cs today (l1 ++ l2) := by
  unfold fetch_events
  rw [List.filterMap_append, List.filterMap_append,
    List.filterMap_cons_none (rowToEvent_none_of_unparseable h)]

/-- C1 witness: a concrete three-row listing whose middle row reads
"All Day"; `fetch_events` returns the events of the two surrounding rows. -/
theorem c1_unparseable_row_skipped_witness :
    parse_time_to_dt "All Day" 0 = none ∧
    fetch_events ["USD"] 0
        [{ highImpact := true, currency := "USD", title := "A",
           timeStr := "8:30am", forecast := "1", previous := "2" },
         { highImpact := true, currency := "USD", title := "B",
           timeStr := "All Day", forecast := "", previous := "" },
         { highImpact := true, currency := "USD", title := "C",
           timeStr := "9am", forecast := "3", previous := "4" }] =
      fetch_events ["USD"] 0
        [{ highImpact := true, currency := "USD", title := "A",
           timeStr := "8:30am", forecast := "1", previous := "2" },
         { highImpact := true, currency := "USD", title := "C",
           timeStr := "9am", forecast := "3", previous := "4" }] :=
  ⟨by decide,
    c1_unparseable_row_skipped ["USD"] 0
      [{ highImpact := true, currency := "USD", title := "A",
         timeStr := "8:30am", forecast := "1", previous := "2" }]
      [{ highImpact := true, currency := "USD", title := "C",
         timeStr := "9am", forecast := "3", previous := "4" }]
      { highImpact := true, currency := "USD", title := "B",
        timeStr := "All Day", forecast := "", previous := "" }
      (by decide)⟩

/-- C3: when `fire_at = event_dt - lead` is not in the future,
`schedule` yields `SkippedPast`, registers no job, and leaves
`SCHEDULED_IDS` untouched (src/bot.py lines 159-161). -/
theorem c3_skipped_past (lead now : Int) (st : BotState) (ev : Event)
    (h : ev.event_dt - lead ≤ now) :
    schedule lead now st ev = (st, Except.ok Outcome.SkippedPast) := by
  unfold schedule
  simp [h]

/-- C3 witness: the spec's scenario — poll at 09:00 (minute 540), event at
09:12 (minute 552), lead 15, so `fire_at` 08:57 is past. -/
theorem c3_skipped_past_witness :
    (552 : Int) - 15 ≤ 540 ∧
    schedule 15 540 { scheduledIds := [], jobs := [] }
        { id := "552|usd|nfp", currency := "USD", title := "NFP",
          event_dt := 552, forecast := "—", previous := "—" } =
      ({ scheduledIds := [], jobs := [] }, Except.ok Outcome.SkippedPast) :=
  ⟨by decide,
    c3_skipped_past 15 540 { scheduledIds := [], jobs := [] }
      { id := "552|usd|nfp", currency := "USD", title := "NFP",
        event_dt := 552, forecast := "—", previous := "—" } (by decide)⟩

/-- C4 counterexample: the past check (src/bot.py line 160) precedes the
duplicate check (line 162), so an already-indexed event whose fire time has
also passed is skipped with outcome `SkippedPast`, not `SkippedDuplicate` —
the claim's universally asserted outcome is wrong for such events. -/
theorem c4_counterexample :
    "552|usd|nfp" ∈ ["552|usd|nfp"] ∧
    (schedule 15 540 { scheduledIds := ["552|usd|nfp"], jobs := [] }
        { id := "552|usd|nfp", currency := "USD", title := "NFP",
          event_dt := 552, forecast := "—", previous := "—" }).2 =
      Except.ok Outcome.SkippedPast ∧
    (schedule 15 540 { scheduledIds := ["552|usd|nfp"], jobs := [] }
        { id := "552|usd|nfp", currency := "USD", title := "NFP",
          event_dt := 552, forecast := "—", previous := "—" }).2 ≠
      Except.ok Outcome.SkippedDuplicate := by decide

/-- C4 (amended): for an event whose identity is already in
`SCHEDULED_IDS`, no second job is ever created and the state is unchanged;
the outcome is `SkippedDuplicate` provided the fire time is still in the
future (otherwise the earlier past check reports `SkippedPast`). -/
theorem c4_duplicate_not_rescheduled (lead now : Int) (st : BotState)
    (ev : Event) (hmem : ev.id ∈ st.scheduledIds) :
    (schedule lead now st ev).1 = st ∧
    (now < ev.event_dt - lead →
      schedule lead now st ev = (st, Except.ok Outcome.SkippedDuplicate)) := by
  unfold schedule
  by_cases hpast : ev.event_dt - lead ≤ now
  · simp [hpast]
  · simp [hpast, hmem]

/-- C4 witness: a future, already-indexed event is reported
`SkippedDuplicate` and the state is untouched. -/
theorem c4_duplicate_not_rescheduled_witness :
    "560|gbp|cpi" ∈ ["560|gbp|cpi"] ∧
    (schedule 15 540 { scheduledIds := ["560|gbp|cpi"], jobs := [] }
        { id := "560|gbp|cpi", currency := "GBP", title := "CPI",
          event_dt := 560, forecast := "—", previous := "—" }).1 =
      { scheduledIds := ["560|gbp|cpi"], jobs := [] } ∧
    schedule 15 540 { scheduledIds := ["560|gbp|cpi"], jobs := [] }
        { id := "560|gbp|cpi", currency := "GBP", title := "CPI",
          event_dt := 560, forecast := "—", previous := "—" } =
      ({ scheduledIds := ["560|gbp|cpi"], jobs := [] },
        Except.ok Outcome.SkippedDuplicate) := by
  refine ⟨by decide, ?_, ?_⟩
  · exact (c4_duplicate_not_rescheduled 15 540
      { scheduledIds := ["560|gbp|cpi"], jobs := [] }
      { id := "560|gbp|cpi", currency := "GBP", title := "CPI",
        event_dt := 560, forecast := "—", previous := "—" } (by decide)).1
  · exact (c4_duplicate_not_rescheduled 15 540
      { scheduledIds := ["560|gbp|cpi"], jobs := [] }
      { id := "560|gbp|cpi", currency := "GBP", title := "CPI",
        event_dt := 560, forecast := "—", previous := "—" } (by decide)).2
      (by decide)

/-- C7: when the fetch step raises, `poll_and_schedule` catches the
exception, leaves `SCHEDULED_IDS` and the pending jobs exactly as they
were, and returns normally so the loop goes on (src/bot.py lines 176-182). -/
theorem c7_fetch_failure_leaves_state (lead now : Int) (e : String)
    (st : BotState) :
    poll_and_schedule lead now (Except.error e) st = (st, none) := rfl

/-- C2 evaluation: `main` performs the immediate startup pass (tick 0), but
because line 188 passes `next_run_time=None`, the interval job is added
paused and no fetch-and-schedule pass runs at any later interval tick. -/
theorem c2_interval_poll_never_runs (k : Nat) (hk : 0 < k) :
    pollPassRuns 0 = true ∧ pollPassRuns k = false := by
  refine ⟨rfl, ?_⟩
  unfold pollPassRuns
  rw [if_neg (by omega : ¬ k = 0)]
  rfl

/-- C2 witness: evaluated at the first interval tick. -/
theorem c2_interval_poll_never_runs_witness :
    0 < 1 ∧ (pollPassRuns 0 = true ∧ pollPassRuns 1 = false) :=
  ⟨by decide, c2_interval_poll_never_runs 1 (by decide)⟩

/-- C6: running the fetch-and-schedule cycle twice on an unchanged upstream
listing (same fetched events, any later second poll time) schedules each
distinct event at most once in total — the first cycle completes normally
and leaves pairwise-distinct job ids, and the second cycle changes nothing:
it registers no new task for any event the first cycle scheduled.
The hypotheses say the initial state is reachable: every pending job id is
recorded in `SCHEDULED_IDS` and job ids are distinct (both hold for the
empty startup state and are preserved by every cycle). -/
theorem c6_second_cycle_adds_nothing (lead now1 now2 : Int)
    (events : List Event) (st : BotState)
    (hinv : jobIds st ⊆ st.scheduledIds)
    (hnd : (jobIds st).Nodup)
    (hle : now1 ≤ now2) :
    (poll_and_schedule lead now1 (Except.ok events) st).2 = none ∧
    (jobIds (poll_and_schedule lead now1 (Except.ok events) st).1).Nodup ∧
    poll_and_schedule lead now2 (Except.ok events)
        (poll_and_schedule lead now1 (Except.ok events) st).1 =
      ((poll_and_schedule lead now1 (Except.ok events) st).1, none) := by
  obtain ⟨e1, _, _, _, m1, n1⟩ :=
    schedule_notifications_ok_of_inv lead now1 events st hinv
  refine ⟨e1, n1 hnd, ?_⟩
  apply schedule_notifications_noop
  intro ev he
  rcases le_or_lt (ev.event_dt - lead) now1 with hp | hf
  · exact Or.inl (le_trans hp hle)
  · exact Or.inr (m1 ev he hf)

/-- C6 witness: a one-event listing polled at 09:00 and again at 09:10; the
event (09:20, lead 15, `fire_at` 09:05) is scheduled by the first cycle and
the second cycle leaves the state untouched. -/
theorem c6_second_cycle_adds_nothing_witness :
    (poll_and_schedule 15 540 (Except.ok
        [{ id := "560|gbp|cpi", currency := "GBP", title := "CPI",
           event_dt := 560, forecast := "—", previous := "—" }])
        { scheduledIds := [], jobs := [] }).2 = none ∧
    (jobIds (poll_and_schedule 15 540 (Except.ok
        [{ id := "560|gbp|cpi", currency := "GBP", title := "CPI",
           event_dt := 560, forecast := "—", previous := "—" }])
        { scheduledIds := [], jobs := [] }).1).Nodup ∧
    poll_and_schedule 15 550 (Except.ok
        [{ id := "560|gbp|cpi", currency := "GBP", title := "CPI",
           event_dt := 560, forecast := "—", previous := "—" }])
        (poll_and_schedule 15 540 (Except.ok
          [{ id := "560|gbp|cpi", currency := "GBP", title := "CPI",
             event_dt := 560, forecast := "—", previous := "—" }])
          { scheduledIds := [], jobs := [] }).1 =
      ((poll_and_schedule 15 540 (Except.ok
          [{ id := "560|gbp|cpi", currency := "GBP", title := "CPI",
             event_dt := 560, forecast := "—", previous := "—" }])
          { scheduledIds := [], jobs := [] }).1, none) :=
  c6_second_cycle_adds_nothing 15 540 550
    [{ id := "560|gbp|cpi", currency := "GBP", title := "CPI",
       event_dt := 560, forecast := "—", previous := "—" }]
    { scheduledIds := [], jobs := [] }
    (by decide) (by decide) (by decide)

/-- C8: no runtime error terminates the loop — a fetch failure and a send
failure are both absorbed (`poll_and_schedule` and `notify` return normally
for every injected fault, over any reachable state), while the startup check
raises `SystemExit` exactly when a credential is missing. -/
theorem c8_only_startup_error_fatal (lead now : Int)
    (fetchResult : Except String (List Event))
    (sendResult : Except String Unit) (st : BotState) (tok chat : String)
    (hinv : jobIds st ⊆ st.scheduledIds) :
    (poll_and_schedule lead now fetchResult st).2 = none ∧
    notify sendResult = none ∧
    (startup_check tok chat = Except.error "SystemExit" ↔
      (tok = "" ∨ chat = "")) := by
  refine ⟨?_, ?_, ?_⟩
  · cases fetchResult with
    | error e => rfl
    | ok events =>
      exact (schedule_notifications_ok_of_inv lead now events st hinv).1
  · cases sendResult <;> rfl
  · unfold startup_check
    by_cases h : tok = "" ∨ chat = ""
    · rw [if_pos (by rcases h with h | h <;> simp [h])]
      simp [h]
    · rw [if_neg (by simpa using h)]
      simp [h]

/-- C8 witness: a poll whose send fails and an empty-token startup check,
at concrete inputs. -/
theorem c8_only_startup_error_fatal_witness :
    (poll_and_schedule 15 540 (Except.ok
        [{ id := "560|gbp|cpi", currency := "GBP", title := "CPI",
           event_dt := 560, forecast := "—", previous := "—" }])
        { scheduledIds := [], jobs := [] }).2 = none ∧
    notify (Except.error "Telegram API error") = none ∧
    (startup_check "" "12345" = Except.error "SystemExit" ↔
      ("" = "" ∨ "12345" = "")) :=
  c8_only_startup_error_fatal 15 540 (Except.ok
      [{ id := "560|gbp|cpi", currency := "GBP", title := "CPI",
         event_dt := 560, forecast := "—", previous := "—" }])
    (Except.error "Telegram API error") { scheduledIds := [], jobs := [] }
    "" "12345" (by decide)

/-- C10: identities enter `SCHEDULED_IDS` only after `scheduler.add_job`
completed (src/bot.py lines 164-173, the add on line 173 follows the
registration): every identity found in the index after a run of
`schedule_notifications` — even one aborted by an exception — was either
there before or names a registered pending job. -/
theorem c10_index_entry_has_job (lead now : Int) (events : List Event)
    (st : BotState) (i : String)
    (h : i ∈ (schedule_notifications lead now events st).1.scheduledIds) :
    i ∈ st.scheduledIds ∨
      i ∈ jobIds (schedule_notifications lead now events st).1 := by
  induction events generalizing st with
  | nil => exact Or.inl h
  | cons ev rest ih =>
    have hnew := schedule_new_id lead now st ev
    rcases heq : schedule lead now st ev with ⟨st1, r⟩
    rw [heq] at hnew
    cases r with
    | error e =>
      simp only [schedule_notifications, heq] at h ⊢
      exact hnew i h
    | ok o =>
      simp only [schedule_notifications, heq] at h ⊢
      rcases ih st1 h with hl | hr
      · rcases hnew i hl with hll | hlr
        · exact Or.inl hll
        · exact Or.inr (schedule_notifications_jobIds_mono lead now rest st1 hlr)
      · exact Or.inr hr

/-- C10 witness: after scheduling one fresh future event from the empty
state, its identity is in the index and indeed names a registered job. -/
theorem c10_index_entry_has_job_witness :
    "560|gbp|cpi" ∈ (schedule_notifications 15 540
        [{ id := "560|gbp|cpi", currency := "GBP", title := "CPI",
           event_dt := 560, forecast := "—", previous := "—" }]
        { scheduledIds := [], jobs := [] }).1.scheduledIds ∧
    ("560|gbp|cpi" ∈ ([] : List String) ∨
      "560|gbp|cpi" ∈ jobIds (schedule_notifications 15 540
        [{ id := "560|gbp|cpi", currency := "GBP", title := "CPI",
           event_dt := 560, forecast := "—", previous := "—" }]
        { scheduledIds := [], jobs := [] }).1) :=
  ⟨by decide,
    c10_index_entry_has_job 15 540
      [{ id := "560|gbp|cpi", currency := "GBP", title := "CPI",
         event_dt := 560, forecast := "—", previous := "—" }]
      { scheduledIds := [], jobs := [] } "560|gbp|cpi" (by decide)⟩

/-- C5: identity is a pure function of (event_instant, currency, title) —
any two events produced by `fetch_events`, from any listings, any poll
cycles and any tracked-currency configurations, that agree on those three
record fields carry the same identity string, whatever their other fields
(the raw currency cell may even differ in casing, since the identity is
lower-cased and the record currency upper-cased). -/
theorem c5_identity_pure_function (cs1 cs2 : List String) (t1 t2 : Int)
    (rows1 rows2 : List Row) (e1 e2 : Event)
    (h1 : e1 ∈ fetch_events cs1 t1 rows1)
    (h2 : e2 ∈ fetch_events cs2 t2 rows2)
    (hdt : e1.event_dt = e2.event_dt)
    (hcur : e1.currency = e2.currency)
    (htit : e1.title = e2.title) :
    e1.id = e2.id := by
  obtain ⟨r1, _, hr1⟩ := List.mem_filterMap.mp h1
  obtain ⟨r2, _, hr2⟩ := List.mem_filterMap.mp h2
  obtain ⟨hc1, ht1, hid1⟩ := rowToEvent_fields hr1
  obtain ⟨hc2, ht2, hid2⟩ := rowToEvent_fields hr2
  have hup : pyUpper r1.currency = pyUpper r2.currency := by
    rw [← hc1, ← hc2, hcur]
  have hlow : pyLower r1.currency = pyLower r2.currency :=
    pyLower_pyUpper_congr hup
  have htit2 : r1.title = r2.title := by rw [← ht1, ← ht2, htit]
  rw [hid1, hid2, hdt]
  simp only [pyLower_append]
  rw [hlow, htit2]

/-- C5 witness: the same event scraped with currency cells "usd" and "USD"
and different forecast cells collapses to one identity. -/
theorem c5_identity_pure_function_witness :
    ({ id := "510|usd|cpi y/y", currency := "USD", title := "CPI y/y",
       event_dt := 510, forecast := "3.1%", previous := "—" } : Event) ∈
      fetch_events ["USD"] 0
        [{ highImpact := true, currency := "usd", title := "CPI y/y",
           timeStr := "8:30am", forecast := "3.1%", previous := "" }] ∧
    ({ id := "510|usd|cpi y/y", currency := "USD", title := "CPI y/y",
       event_dt := 510, forecast := "—", previous := "2.9%" } : Event) ∈
      fetch_events ["USD", "GBP"] 0
        [{ highImpact := true, currency := "USD", title := "CPI y/y",
           timeStr := "8:30am", forecast := "", previous := "2.9%" }] ∧
    ({ id := "510|usd|cpi y/y", currency := "USD", title := "CPI y/y",
       event_dt := 510, forecast := "3.1%", previous := "—" } : Event).id =
      ({ id := "510|usd|cpi y/y", currency := "USD", title := "CPI y/y",
         event_dt := 510, forecast := "—", previous := "2.9%" } : Event).id :=
  ⟨by decide, by decide,
    c5_identity_pure_function ["USD"] ["USD", "GBP"] 0 0
      [{ highImpact := true, currency := "usd", title := "CPI y/y",
         timeStr := "8:30am", forecast := "3.1%", previous := "" }]
      [{ highImpact := true, currency := "USD", title := "CPI y/y",
         timeStr := "8:30am", forecast := "", previous := "2.9%" }]
      { id := "510|usd|cpi y/y", currency := "USD", title := "CPI y/y",
        event_dt := 510, forecast := "3.1%", previous := "—" }
      { id := "510|usd|cpi y/y", currency := "USD", title := "CPI y/y",
        event_dt := 510, forecast := "—", previous := "2.9%" }
      (by decide) (by decide) (by decide) (by decide) (by decide)⟩

theorem resolveClock_shape {hm : Option (Nat × Nat)} {pm : Bool}
    {base t : Int} (h : resolveClock hm pm base = some t) :
    ∃ X : Nat, X < 1440 ∧ t = base + (X : Int) ∧
      resolveClock hm pm 0 = some (X : Int) := by
  cases hm with
  | none => exact Option.noConfusion h
  | some p =>
    obtain ⟨hh, mm⟩ := p
    have h2 : (if 1 ≤ hh ∧ hh ≤ 12 ∧ mm ≤ 59 then
        some (base + 60 * ((hh % 12 : Nat) + (if pm then 12 else 0)) + mm)
      else none) = some t := h
    by_cases hcond : 1 ≤ hh ∧ hh ≤ 12 ∧ mm ≤ 59
    · rw [if_pos hcond] at h2
      have h12 : hh % 12 < 12 := Nat.mod_lt _ (by omega)
      have hite : (if pm then 12 else 0) ≤ 12 := by
        cases pm <;> simp
      have ht := Option.some.inj h2
      refine ⟨60 * (hh % 12 + if pm then 12 else 0) + mm, by omega, ?_, ?_⟩
      · push_cast at ht ⊢
        omega
      · show (if 1 ≤ hh ∧ hh ≤ 12 ∧ mm ≤ 59 then
            some ((0 : Int) + 60 * ((hh % 12 : Nat) + (if pm then 12 else 0)) +
              mm)
          else none) = some ((60 * (hh % 12 + if pm then 12 else 0) + mm : Nat) :
            Int)
        rw [if_pos hcond]
        congr 1
        push_cast
        omega
    · rw [if_neg hcond] at h2
      exact Option.noConfusion h2

theorem parse_time_to_dt_shape {s : String} {base t : Int}
    (h : parse_time_to_dt s base = some t) :
    ∃ X : Nat, X < 1440 ∧ t = base + (X : Int) ∧
      parse_time_to_dt s 0 = some (X : Int) := by
  unfold parse_time_to_dt at h ⊢
  rcases hrev : (pyLower s).data.reverse with _ | ⟨c2, rest1⟩
  · rw [hrev] at h
    exact Option.noConfusion h
  rcases rest1 with _ | ⟨c1, rest⟩
  · rw [hrev] at h
    exact Option.noConfusion h
  rw [hrev] at h
  have h2 : (if c2 = 'm' ∧ c1 = 'a' then
        resolveClock (parseHM rest.reverse) false base
      else if c2 = 'm' ∧ c1 = 'p' then
        resolveClock (parseHM rest.reverse) true base
      else none) = some t := h
  by_cases ham : c2 = 'm' ∧ c1 = 'a'
  · rw [if_pos ham] at h2
    obtain ⟨X, hb, ht, h0⟩ := resolveClock_shape h2
    refine ⟨X, hb, ht, ?_⟩
    show (if c2 = 'm' ∧ c1 = 'a' then
        resolveClock (parseHM rest.reverse) false 0
      else if c2 = 'm' ∧ c1 = 'p' then
        resolveClock (parseHM rest.reverse) true 0
      else none) = some (X : Int)
    rw [if_pos ham]
    exact h0
  · rw [if_neg ham] at h2
    by_cases hpm : c2 = 'm' ∧ c1 = 'p'
    · rw [if_pos hpm] at h2
      obtain ⟨X, hb, ht, h0⟩ := resolveClock_shape h2
      refine ⟨X, hb, ht, ?_⟩
      show (if c2 = 'm' ∧ c1 = 'a' then
          resolveClock (parseHM rest.reverse) false 0
        else if c2 = 'm' ∧ c1 = 'p' then
          resolveClock (parseHM rest.reverse) true 0
        else none) = some (X : Int)
      rw [if_neg ham, if_pos hpm]
      exact h0
    · rw [if_neg hpm] at h2
      exact Option.noConfusion h2

theorem digitChar_toNat (k : Nat) (hk : k ≤ 9) :
    (digitChar (k : Int)).toNat = 48 + k := by
  unfold digitChar
  have hcast : ((k : Int)).toNat = k := by omega
  rw [hcast]
  exact char_toNat_ofNat_valid (48 + k) (by omega)

theorem pyIsDigit_digitChar (k : Nat) (hk : k ≤ 9) :
    pyIsDigit (digitChar (k : Int)) = true := by
  unfold pyIsDigit
  rw [digitChar_toNat k hk]
  simp
  omega

theorem digitVal_digitChar (k : Nat) (hk : k ≤ 9) :
    digitVal (digitChar (k : Int)) = k := by
  unfold digitVal
  rw [digitChar_toNat k hk]
  omega

theorem readClock24_eval (d1 d2 d4 d5 : Char) :
    readClock24 ⟨[d1, d2, ':', d4, d5]⟩ =
      (if pyIsDigit d1 && pyIsDigit d2 && true && pyIsDigit d4 &&
          pyIsDigit d5 then
        if 10 * digitVal d1 + digitVal d2 ≤ 23 ∧
            10 * digitVal d4 + digitVal d5 ≤ 59 then
          some ((60 * (10 * digitVal d1 + digitVal d2) +
            (10 * digitVal d4 + digitVal d5) : Nat) : Int)
        else none
      else none) := rfl

theorem readClock24_pad2 (a b : Nat) (ha : a ≤ 23) (hb : b ≤ 59) :
    readClock24 (pad2 (a : Int) ++ ":" ++ pad2 (b : Int)) =
      some ((60 * a + b : Nat) : Int) := by
  have hdiva : ((a : Int) / 10) = ((a / 10 : Nat) : Int) := by omega
  have hmoda : ((a : Int) % 10) = ((a % 10 : Nat) : Int) := by omega
  have hdivb : ((b : Int) / 10) = ((b / 10 : Nat) : Int) := by omega
  have hmodb : ((b : Int) % 10) = ((b % 10 : Nat) : Int) := by omega
  have hstr : pad2 (a : Int) ++ ":" ++ pad2 (b : Int) =
      (⟨[digitChar ((a : Int) / 10), digitChar ((a : Int) % 10), ':',
         digitChar ((b : Int) / 10), digitChar ((b : Int) % 10)]⟩ : String) :=
    rfl
  have p1 := pyIsDigit_digitChar (a / 10) (by omega)
  have p2 := pyIsDigit_digitChar (a % 10) (by omega)
  have p3 := pyIsDigit_digitChar (b / 10) (by omega)
  have p4 := pyIsDigit_digitChar (b % 10) (by omega)
  have v1 := digitVal_digitChar (a / 10) (by omega)
  have v2 := digitVal_digitChar (a % 10) (by omega)
  have v3 := digitVal_digitChar (b / 10) (by omega)
  have v4 := digitVal_digitChar (b % 10) (by omega)
  rw [hstr, hdiva, hmoda, hdivb, hmodb, readClock24_eval]
  rw [p1, p2, p3, p4, v1, v2, v3, v4]
  have hra : 10 * (a / 10) + a % 10 = a := by omega
  have hrb : 10 * (b / 10) + b % 10 = b := by omega
  rw [hra, hrb]
  simp [ha, hb]

theorem strftime_readback (d : Int) (X : Nat) (hX : X < 1440) :
    readClock24 (strftime_HM (1440 * d + (X : Int))) = some ((X : Nat) : Int) := by
  unfold strftime_HM hourOfDay minuteOfHour
  have h1 : (1440 * d + (X : Int)) % 1440 / 60 = ((X / 60 : Nat) : Int) := by
    omega
  have h2 : (1440 * d + (X : Int)) % 60 = ((X % 60 : Nat) : Int) := by omega
  rw [h1, h2, readClock24_pad2 (X / 60) (X % 60) (by omega) (by omega)]
  congr 1
  omega

/-- C9 counterexample: the source row's clock string "8:30am" resolves to
08:30, but `notify` displays it as `strftime("%H:%M")` = "08:30", which is
not the clock string originally present in the row. -/
theorem c9_counterexample :
    parse_time_to_dt "8:30am" 0 = some 510 ∧
    strftime_HM 510 = "08:30" ∧ "08:30" ≠ "8:30am" := by decide

/-- C9 (amended): for every source row with a supported clock-time format,
formatting the resolved `event_dt` back with the display format
`strftime("%H:%M")` yields the 24-hour rendering of the very time of day
the row's clock string denotes: reading the display string back gives
exactly what parsing the row's time against day zero gives (the denoted
minutes-of-day), though the literal 12-hour string is not reproduced. -/
theorem c9_display_matches_row_time (s : String) (d t : Int)
    (h : parse_time_to_dt s (1440 * d) = some t) :
    readClock24 (strftime_HM t) = parse_time_to_dt s 0 := by
  obtain ⟨X, hX, rfl, h0⟩ := parse_time_to_dt_shape h
  rw [h0, strftime_readback d X hX]

/-- C9 witness: the "8:30am" row on day 0. -/
theorem c9_display_matches_row_time_witness :
    readClock24 (strftime_HM 510) = parse_time_to_dt "8:30am" 0 :=
  c9_display_matches_row_time "8:30am" 0 510 (by decide)
